import Mathlib

/-!
Shallow embedding of the gameplay simulation core of `src/js/game.js`
(a 3D flappy-bird style game).  Numeric values are modelled as exact
rationals; the JS decimal literals of the configuration object are all
exactly representable.  Rendering, meshes, DOM and storage calls are
external collaborators: the embedding keeps only the simulation state
(game status, score, high score, bird position/velocity, timers, pipes)
and models persistence writes and score-increment signals as explicit
outputs of the corresponding functions.
-/

namespace Game

/-! ### Configuration constants (`CONFIG`, game.js lines 13-54) -/

/-- Constant `CONFIG.bird.startX = 0`. -/
def birdStartX : ℚ := 0

/-- Constant `CONFIG.bird.startY = 8`. -/
def birdStartY : ℚ := 8

/-- Constant `CONFIG.bird.startZ = -20`. -/
def birdStartZ : ℚ := -20

/-- Constant `CONFIG.bird.size = 1.2`. -/
def birdSize : ℚ := 12/10

/-- Constant `CONFIG.bird.gravity = -0.018`. -/
def gravity : ℚ := -18/1000

/-- Constant `CONFIG.bird.flapStrength = 0.4`. -/
def flapStrength : ℚ := 4/10

/-- Constant `CONFIG.bird.maxVelocity = 0.5`. -/
def maxVelocity : ℚ := 5/10

/-- Constant `CONFIG.bird.minVelocity = -0.6`. -/
def minVelocity : ℚ := -6/10

/-- Constant `CONFIG.pipes.speed = 0.3`. -/
def pipeSpeed : ℚ := 3/10

/-- Constant `CONFIG.pipes.spawnInterval = 2500` (milliseconds; the render loop
compares against `spawnInterval / 1000` seconds). -/
def spawnInterval : ℚ := 2500

/-- Constant `CONFIG.pipes.gapSize = 9`. -/
def gapSize : ℚ := 9

/-- Constant `CONFIG.pipes.width = 4`. -/
def pipeWidth : ℚ := 4

/-- Constant `CONFIG.pipes.depth = 4`. -/
def pipeDepth : ℚ := 4

/-- Constant `CONFIG.pipes.startZ = -120`. -/
def pipeStartZ : ℚ := -120

/-- Constant `CONFIG.pipes.endZ = 10`. -/
def pipeEndZ : ℚ := 10

/-- Constant `CONFIG.bounds.top = 18`. -/
def boundsTop : ℚ := 18

/-- Constant `CONFIG.bounds.bottom = -2`. -/
def boundsBottom : ℚ := -2

/-- Collision radius of the bird, `CONFIG.bird.size * 0.8`
(game.js line 436). -/
def birdRadius : ℚ := birdSize * (8/10)

/-! ### Data model -/

/-- The game status string: `'start'`, `'playing'` or `'gameover'`
(game.js line 60). -/
inductive Status where
  | start
  | playing
  | gameover
deriving DecidableEq, Repr

/-- One pipe group, as far as the simulation is concerned: its position
(`pipeGroup.position`), the gap bounds stored in `userData` (game.js
lines 389-390) and the `userData.passed` flag (line 329). -/
structure Pipe where
  x : ℚ
  z : ℚ
  gapTop : ℚ
  gapBottom : ℚ
  passed : Bool
deriving DecidableEq, Repr

/-- The whole mutable simulation state: `gameState` (status, score,
highScore), the bird's position and `birdVelocity`, the timers
`gameTime` and `lastPipeSpawn`, and the `pipes` array. -/
structure GameState where
  status : Status
  score : ℕ
  highScore : ℕ
  birdX : ℚ
  birdY : ℚ
  birdZ : ℚ
  birdVelocity : ℚ
  gameTime : ℚ
  lastPipeSpawn : ℚ
  pipes : List Pipe
deriving DecidableEq, Repr

/-! ### Flyer physics (render loop, game.js lines 594-597) -/

/-- One velocity update of the render loop:
`birdVelocity += CONFIG.bird.gravity` followed by
`birdVelocity = Math.max(minVelocity, Math.min(maxVelocity, birdVelocity))`. -/
def integrateVelocity (v : ℚ) : ℚ :=
  max minVelocity (min maxVelocity (v + gravity))

/-- One full physics step of the render loop (lines 594-597): gravity,
clamp, then `bird.position.y += birdVelocity`.  The tilt update of
lines 600-604 is cosmetic (it only rotates the visual model) and is
not part of the simulation state. -/
def integrate (s : GameState) : GameState :=
  let v := integrateVelocity s.birdVelocity
  { s with birdVelocity := v, birdY := s.birdY + v }

/-- The elementary flyer operations a player-visible run is made of:
physics steps and impulses (`birdVelocity = CONFIG.bird.flapStrength`,
game.js line 527). -/
inductive FlyerOp where
  | integrateStep
  | impulse
deriving DecidableEq, Repr

/-- Run a sequence of flyer operations from a state. -/
def runFlyerOps (ops : List FlyerOp) (s : GameState) : GameState :=
  match ops with
  | [] => s
  | FlyerOp.integrateStep :: rest => runFlyerOps rest (integrate s)
  | FlyerOp.impulse :: rest =>
      runFlyerOps rest { s with birdVelocity := flapStrength }

/-! ### Pipes (game.js lines 327-425) -/

/-- Function `createPipe(gapCenterY)` (game.js lines 327-398), restricted to the
simulation-relevant data: `userData.passed = false`,
`userData.gapTop = gapCenterY + gapSize/2`,
`userData.gapBottom = gapCenterY - gapSize/2`, and
`position.set(CONFIG.bird.startX, 0, CONFIG.pipes.startZ)`. -/
def createPipe (gapCenterY : ℚ) : Pipe :=
  { x := birdStartX
    z := pipeStartZ
    gapTop := gapCenterY + gapSize / 2
    gapBottom := gapCenterY - gapSize / 2
    passed := false }

/-- The body of one iteration of the `updatePipes` loop, before the
retirement test (game.js lines 410-417): advance
`pipe.position.z += CONFIG.pipes.speed`, then if
`!pipe.userData.passed && pipe.position.z > bird.position.z + 2` mark
it passed and signal one `incrementScore()` call.  Returns the updated
pipe and the number of score increments emitted (0 or 1). -/
def pipeStep (birdZ : ℚ) (p : Pipe) : Pipe × ℕ :=
  let p1 : Pipe := { p with z := p.z + pipeSpeed }
  if p1.passed = false ∧ p1.z > birdZ + 2 then
    ({ p1 with passed := true }, 1)
  else
    (p1, 0)

/-- One iteration of the `updatePipes` loop at index `i` (game.js lines
409-423): process `pipes[i]` with `pipeStep`, then if
`pipe.position.z > CONFIG.pipes.endZ` remove it (`pipes.splice(i, 1)`),
else store the updated pipe back at index `i`.  Out-of-range indices
leave the list unchanged. -/
def updatePipesAt (birdZ : ℚ) (ps : List Pipe) (i : ℕ) : List Pipe × ℕ :=
  match ps.get? i with
  | none => (ps, 0)
  | some p =>
      let r := pipeStep birdZ p
      if r.1.z > pipeEndZ then (ps.eraseIdx i, r.2)
      else (ps.set i r.1, r.2)

/-- The `updatePipes` index loop
`for (let i = pipes.length - 1; i >= 0; i--)` (game.js line 408):
process indices `i-1, i-2, ..., 0` in that order, threading the list
through removals and summing the score increments. -/
def updatePipesGo (birdZ : ℚ) (ps : List Pipe) : ℕ → List Pipe × ℕ
  | 0 => (ps, 0)
  | i + 1 =>
      let r1 := updatePipesAt birdZ ps i
      let r2 := updatePipesGo birdZ r1.1 i
      (r2.1, r1.2 + r2.2)

/-- Function `updatePipes(delta)` (game.js lines 405-425); `delta` is unused by
the source body.  Returns the new pipes list and the number of
`incrementScore()` calls emitted. -/
def updatePipes (birdZ : ℚ) (ps : List Pipe) : List Pipe × ℕ :=
  updatePipesGo birdZ ps ps.length

/-! ### Collision detection (`checkCollisions`, game.js lines 430-464) -/

/-- The per-pipe overlap test of the `checkCollisions` loop (game.js
lines 444-461).  `pipe.position.x || birdX` is JavaScript's `||` on
numbers: it yields `birdX` when `pipe.position.x` is `0`. -/
def pipeCollides (birdX birdY birdZ : ℚ) (p : Pipe) : Bool :=
  let pipeZ := p.z
  let pipeX := if p.x = 0 then birdX else p.x
  let zDistance := |pipeZ - birdZ|
  if zDistance < pipeDepth / 2 + birdRadius then
    let xDistance := |pipeX - birdX|
    if xDistance < pipeWidth / 2 + birdRadius then
      if birdY - birdRadius < p.gapBottom ∨ birdY + birdRadius > p.gapTop then
        true
      else false
    else false
  else false

/-- Function `checkCollisions()` (game.js lines 430-464): returns `false` unless
the status is `'playing'`; then reports a collision if the bird is out
of bounds (`birdY < bounds.bottom + birdRadius || birdY > bounds.top -
birdRadius`, line 439) or overlaps some pipe.  The early `return true`
inside the pipe loop is modelled by `List.any`. -/
def checkCollisions (s : GameState) : Bool :=
  if s.status ≠ Status.playing then false
  else if s.birdY < boundsBottom + birdRadius ∨ s.birdY > boundsTop - birdRadius then
    true
  else
    s.pipes.any (pipeCollides s.birdX s.birdY s.birdZ)

/-! ### Game logic (game.js lines 469-529) -/

/-- Function `startGame()` (game.js lines 469-493): status `'playing'`, score 0,
`birdVelocity = 0`, `gameTime = 0`, `lastPipeSpawn = 0`, bird reset to
its start position, pipes cleared.  UI updates are external. -/
def startGame (s : GameState) : GameState :=
  { s with
    status := Status.playing
    score := 0
    birdVelocity := 0
    gameTime := 0
    lastPipeSpawn := 0
    birdX := birdStartX
    birdY := birdStartY
    birdZ := birdStartZ
    pipes := [] }

/-- Function `gameOver()` (game.js lines 495-508): status `'gameover'`; if
`score > highScore` update `highScore` and write it to storage
(`localStorage.setItem`).  The second component is the persistence
write: `some v` for exactly one write of value `v`, `none` for no
write. -/
def gameOver (s : GameState) : GameState × Option ℕ :=
  let s1 := { s with status := Status.gameover }
  if s.score > s.highScore then
    ({ s1 with highScore := s.score }, some s.score)
  else (s1, none)

/-- Function `incrementScore()` (game.js lines 510-519): `gameState.score++`;
the rest is display feedback. -/
def incrementScore (s : GameState) : GameState :=
  { s with score := s.score + 1 }

/-- Function `flap()` (game.js lines 521-529): from `'start'` or `'gameover'`
run `startGame()` first; then (the status now being `'playing'` in
either case) set `birdVelocity = CONFIG.bird.flapStrength`. -/
def flap (s : GameState) : GameState :=
  let s1 :=
    if s.status = Status.start ∨ s.status = Status.gameover then startGame s
    else s
  if s1.status = Status.playing then { s1 with birdVelocity := flapStrength }
  else s1

/-- Function `spawnPipe()` (game.js lines 400-403) with the random draw made an
explicit argument: append `createPipe(gapY)` to the pipes array. -/
def spawnPipe (gapY : ℚ) (s : GameState) : GameState :=
  { s with pipes := s.pipes ++ [createPipe gapY] }

/-- One `'playing'` iteration of the render loop (game.js lines
591-618) with the external inputs (elapsed `delta`, the random gap
centre `gapY` of a potential spawn) as arguments: accumulate
`gameTime`, integrate the bird, spawn a pipe when
`gameTime > lastPipeSpawn + spawnInterval / 1000`, run `updatePipes`,
then on collision run `gameOver`.  When the status is not `'playing'`
the simulation state is unchanged (the `'start'` branch only animates
a cosmetic bob of the displayed bird, overwritten by the reset of
`startGame`).  The second component is the persistence write of
`gameOver`, if any. -/
def frameStep (delta gapY : ℚ) (s : GameState) : GameState × Option ℕ :=
  if s.status = Status.playing then
    let s1 := integrate { s with gameTime := s.gameTime + delta }
    let s2 :=
      if s1.gameTime > s1.lastPipeSpawn + spawnInterval / 1000 then
        { spawnPipe gapY s1 with lastPipeSpawn := s1.gameTime }
      else s1
    let r := updatePipes s2.birdZ s2.pipes
    let s3 := { s2 with pipes := r.1, score := s2.score + r.2 }
    if checkCollisions s3 then gameOver s3 else (s3, none)
  else (s, none)

/-- The externally triggerable operations of the core: an impulse
request (`flap`, fired by key/touch/mouse) or one frame of the render
loop. -/
inductive Op where
  | impulse
  | frame (delta gapY : ℚ)
deriving DecidableEq

/-- Apply one external operation to the state (persistence writes
discarded). -/
def applyOp (op : Op) (s : GameState) : GameState :=
  match op with
  | Op.impulse => flap s
  | Op.frame delta gapY => (frameStep delta gapY s).1

/-- The updated pipe produced by one `updatePipes` loop iteration
(advance plus pass-marking), i.e. the first component of `pipeStep`. -/
def pipeAdvanced (birdZ : ℚ) (p : Pipe) : Pipe := (pipeStep birdZ p).1

/-- The score condition of game.js line 414, phrased on the pre-advance
pipe: not yet passed, and the advanced depth is strictly past the
bird's depth plus the margin 2. -/
def scoresNow (birdZ : ℚ) (p : Pipe) : Prop :=
  p.passed = false ∧ p.z + pipeSpeed > birdZ + 2

instance (birdZ : ℚ) (p : Pipe) : Decidable (scoresNow birdZ p) := by
  unfold scoresNow; infer_instance

/-- Number of false-to-true transitions of `passed` along `n` further
iterations of the `updatePipes` body on one tracked pipe. -/
def passTransCount (birdZ : ℚ) (p : Pipe) : ℕ → ℕ
  | 0 => 0
  | n + 1 =>
      (if p.passed = false ∧ (pipeAdvanced birdZ p).passed = true then 1
       else 0) +
        passTransCount birdZ (pipeAdvanced birdZ p) n

/-- Number of `incrementScore()` signals emitted for one tracked pipe
along `n` further iterations of the `updatePipes` body. -/
def scoreSignalCount (birdZ : ℚ) (p : Pipe) : ℕ → ℕ
  | 0 => 0
  | n + 1 =>
      (pipeStep birdZ p).2 + scoreSignalCount birdZ (pipeAdvanced birdZ p) n

end Game

namespace Game

/-! ### Basic lemmas -/

/-- The clamp of line 596 always lands in `[minVelocity, maxVelocity]`. -/
theorem integrateVelocity_bounds (v : ℚ) :
    minVelocity ≤ integrateVelocity v ∧ integrateVelocity v ≤ maxVelocity := by
  unfold integrateVelocity
  refine ⟨le_max_left _ _, max_le ?_ (min_le_left _ _)⟩
  norm_num [minVelocity, maxVelocity]

theorem runFlyerOps_append (ops1 ops2 : List FlyerOp) (s : GameState) :
    runFlyerOps (ops1 ++ ops2) s = runFlyerOps ops2 (runFlyerOps ops1 s) := by
  induction ops1 generalizing s with
  | nil => rfl
  | cons op rest ih => cases op <;> simp [runFlyerOps, ih]

/-! ### List index lemmas for the `updatePipes` loop -/

theorem listGetq_append_lt {α : Type} (qs rest : List α) (i : ℕ)
    (h : i < qs.length) : (qs ++ rest).get? i = qs.get? i := by
  induction qs generalizing i with
  | nil => exact absurd h (Nat.not_lt_zero i)
  | cons a qs ih =>
      cases i with
      | zero => rfl
      | succ j => exact ih j (Nat.lt_of_succ_lt_succ h)

theorem listSet_append_lt {α : Type} (qs rest : List α) (i : ℕ) (x : α)
    (h : i < qs.length) : (qs ++ rest).set i x = qs.set i x ++ rest := by
  induction qs generalizing i with
  | nil => exact absurd h (Nat.not_lt_zero i)
  | cons a qs ih =>
      cases i with
      | zero => rfl
      | succ j => simp [List.set, ih j (Nat.lt_of_succ_lt_succ h)]

theorem listEraseIdx_append_lt {α : Type} (qs rest : List α) (i : ℕ)
    (h : i < qs.length) : (qs ++ rest).eraseIdx i = qs.eraseIdx i ++ rest := by
  induction qs generalizing i with
  | nil => exact absurd h (Nat.not_lt_zero i)
  | cons a qs ih =>
      cases i with
      | zero => rfl
      | succ j => simp [List.eraseIdx, ih j (Nat.lt_of_succ_lt_succ h)]

theorem listGetq_concat_self {α : Type} (qs : List α) (p : α) :
    (qs ++ [p]).get? qs.length = some p := by
  induction qs with
  | nil => rfl
  | cons a qs ih => simp [ih]

theorem listSet_concat_self {α : Type} (qs : List α) (p x : α) :
    (qs ++ [p]).set qs.length x = qs ++ [x] := by
  induction qs with
  | nil => rfl
  | cons a qs ih => simp [List.set, ih]

theorem listEraseIdx_concat_self {α : Type} (qs : List α) (p : α) :
    (qs ++ [p]).eraseIdx qs.length = qs := by
  induction qs with
  | nil => rfl
  | cons a qs ih => simp [List.eraseIdx, ih]

/-! ### The functional view of the `updatePipes` loop -/




theorem pipeStep_fst_z (birdZ : ℚ) (p : Pipe) :
    (pipeStep birdZ p).1.z = p.z + pipeSpeed := by
  unfold pipeStep
  dsimp only
  split <;> rfl

theorem pipeStep_fst_passed (birdZ : ℚ) (p : Pipe) :
    (pipeStep birdZ p).1.passed =
      (p.passed || decide (p.z + pipeSpeed > birdZ + 2)) := by
  unfold pipeStep
  dsimp only
  split
  · next h => simp [h.1, h.2]
  · next h =>
      cases hp : p.passed with
      | true => simp
      | false =>
          simp only [hp, Bool.false_or]
          rw [eq_comm, decide_eq_false_iff_not]
          intro hz
          exact h ⟨hp, hz⟩

theorem pipeStep_snd (birdZ : ℚ) (p : Pipe) :
    (pipeStep birdZ p).2 = if scoresNow birdZ p then 1 else 0 := by
  unfold pipeStep scoresNow
  dsimp only
  split <;> rfl

theorem updatePipesAt_concat (birdZ : ℚ) (qs : List Pipe) (p : Pipe) :
    updatePipesAt birdZ (qs ++ [p]) qs.length =
      (if (pipeAdvanced birdZ p).z > pipeEndZ then qs
       else qs ++ [pipeAdvanced birdZ p],
       (pipeStep birdZ p).2) := by
  unfold updatePipesAt pipeAdvanced
  rw [listGetq_concat_self]
  dsimp only
  split
  · rw [listEraseIdx_concat_self]
  · rw [listSet_concat_self]

theorem updatePipesAt_append_lt (birdZ : ℚ) (qs rest : List Pipe) (i : ℕ)
    (h : i < qs.length) :
    updatePipesAt birdZ (qs ++ rest) i =
      ((updatePipesAt birdZ qs i).1 ++ rest, (updatePipesAt birdZ qs i).2) := by
  unfold updatePipesAt
  rw [listGetq_append_lt qs rest i h]
  cases hget : qs.get? i with
  | none => rfl
  | some p =>
      dsimp only
      split
      · rw [listEraseIdx_append_lt qs rest i h]
      · rw [listSet_append_lt qs rest i _ h]

theorem updatePipesAt_length_ge (birdZ : ℚ) (qs : List Pipe) (i : ℕ)
    (h : i < qs.length) : i ≤ (updatePipesAt birdZ qs i).1.length := by
  unfold updatePipesAt
  cases hget : qs.get? i with
  | none => exact Nat.le_of_lt h
  | some p =>
      dsimp only
      split
      · have h1 := List.length_eraseIdx_add_one (l := qs) (i := i) h
        dsimp only
        omega
      · simpa using Nat.le_of_lt h

theorem updatePipesGo_append (birdZ : ℚ) (rest : List Pipe) :
    ∀ (i : ℕ) (qs : List Pipe), i ≤ qs.length →
      updatePipesGo birdZ (qs ++ rest) i =
        ((updatePipesGo birdZ qs i).1 ++ rest, (updatePipesGo birdZ qs i).2) := by
  intro i
  induction i with
  | zero => intro qs _; rfl
  | succ j ih =>
      intro qs h
      have hj : j < qs.length := h
      simp only [updatePipesGo]
      rw [updatePipesAt_append_lt birdZ qs rest j hj,
        ih (updatePipesAt birdZ qs j).1 (updatePipesAt_length_ge birdZ qs j hj)]


theorem updatePipes_concat (birdZ : ℚ) (qs : List Pipe) (p : Pipe) :
    updatePipes birdZ (qs ++ [p]) =
      ((updatePipes birdZ qs).1 ++
         (if (pipeAdvanced birdZ p).z > pipeEndZ then []
          else [pipeAdvanced birdZ p]),
       (pipeStep birdZ p).2 + (updatePipes birdZ qs).2) := by
  unfold updatePipes
  have hlen : (qs ++ [p]).length = qs.length + 1 := by simp
  rw [hlen]
  simp only [updatePipesGo]
  rw [updatePipesAt_concat]
  by_cases hr : (pipeAdvanced birdZ p).z > pipeEndZ
  · rw [if_pos hr, if_pos hr]
    dsimp only
    rw [List.append_nil]
  · rw [if_neg hr, if_neg hr]
    dsimp only
    rw [updatePipesGo_append birdZ [pipeAdvanced birdZ p] qs.length qs
      (Nat.le_refl _)]

theorem updatePipes_spec (birdZ : ℚ) (ps : List Pipe) :
    updatePipes birdZ ps =
      ((ps.map (pipeAdvanced birdZ)).filter (fun q => !decide (q.z > pipeEndZ)),
       ps.countP (fun p => decide (scoresNow birdZ p))) := by
  induction ps using List.reverseRecOn with
  | nil => rfl
  | append_singleton qs p ih =>
      rw [updatePipes_concat, ih, pipeStep_snd]
      by_cases hr : (pipeAdvanced birdZ p).z > pipeEndZ
      · simp [hr, List.countP_cons, Nat.add_comm]
      · simp [hr, List.countP_cons, Nat.add_comm]

theorem pipeAdvanced_passed_iff (birdZ : ℚ) (p : Pipe) :
    (pipeAdvanced birdZ p).passed = true ↔
      (p.passed = true ∨ p.z + pipeSpeed > birdZ + 2) := by
  unfold pipeAdvanced
  rw [pipeStep_fst_passed]
  simp

theorem pass_transition_iff (birdZ : ℚ) (p : Pipe) :
    (p.passed = false ∧ (pipeAdvanced birdZ p).passed = true) ↔
      scoresNow birdZ p := by
  unfold scoresNow
  constructor
  · rintro ⟨h1, h2⟩
    exact ⟨h1, ((pipeAdvanced_passed_iff birdZ p).mp h2).resolve_left
      (by simp [h1])⟩
  · rintro ⟨h1, h2⟩
    exact ⟨h1, (pipeAdvanced_passed_iff birdZ p).mpr (Or.inr h2)⟩



theorem pipeAdvanced_passed_of_passed (birdZ : ℚ) (p : Pipe)
    (h : p.passed = true) : (pipeAdvanced birdZ p).passed = true :=
  (pipeAdvanced_passed_iff birdZ p).mpr (Or.inl h)

theorem passTransCount_of_passed (birdZ : ℚ) :
    ∀ (n : ℕ) (p : Pipe), p.passed = true → passTransCount birdZ p n = 0 := by
  intro n
  induction n with
  | zero => intro p _; rfl
  | succ m ih =>
      intro p h
      unfold passTransCount
      rw [if_neg (by simp [h]), ih _ (pipeAdvanced_passed_of_passed birdZ p h)]

theorem passTransCount_le_one (birdZ : ℚ) :
    ∀ (n : ℕ) (p : Pipe), passTransCount birdZ p n ≤ 1 := by
  intro n
  induction n with
  | zero => intro p; exact Nat.zero_le 1
  | succ m ih =>
      intro p
      unfold passTransCount
      by_cases hc : p.passed = false ∧ (pipeAdvanced birdZ p).passed = true
      · rw [if_pos hc, passTransCount_of_passed birdZ m _ hc.2]
      · rw [if_neg hc]
        simpa using ih (pipeAdvanced birdZ p)

theorem passTransCount_eq_scoreSignalCount (birdZ : ℚ) :
    ∀ (n : ℕ) (p : Pipe),
      passTransCount birdZ p n = scoreSignalCount birdZ p n := by
  intro n
  induction n with
  | zero => intro p; rfl
  | succ m ih =>
      intro p
      unfold passTransCount scoreSignalCount
      rw [pipeStep_snd, ih (pipeAdvanced birdZ p)]
      congr 1
      exact if_congr (pass_transition_iff birdZ p) rfl rfl

theorem flap_highScore (s : GameState) : (flap s).highScore = s.highScore := by
  cases h : s.status <;> simp [flap, startGame, h]

theorem gameOver_highScore (s : GameState) :
    (gameOver s).1.highScore = max s.highScore s.score := by
  unfold gameOver
  split
  · next h => simp [Nat.max_eq_right (Nat.le_of_lt h)]
  · next h => simp [Nat.max_eq_left (Nat.le_of_not_lt h)]

theorem le_gameOver_highScore (s : GameState) :
    s.highScore ≤ (gameOver s).1.highScore := by
  rw [gameOver_highScore]; exact le_max_left _ _

theorem branch_highScore (s3 : GameState) (b : Bool) (n : ℕ)
    (h : s3.highScore = n) :
    n ≤ ((if b then gameOver s3 else (s3, none)).1).highScore := by
  cases b
  · simpa using h.ge
  · simpa using h ▸ le_gameOver_highScore s3

theorem frameStep_highScore (delta gapY : ℚ) (s : GameState) :
    s.highScore ≤ ((frameStep delta gapY s).1).highScore := by
  unfold frameStep
  split
  · dsimp only
    split <;> exact branch_highScore _ _ _ rfl
  · exact Nat.le_refl _

end Game

namespace Game

/-! ### Claim theorems -/

/-- C1: for every sequence of integrate and impulse operations, after
any single integration step (gravity, then clamp, then position
update) the flyer's `birdVelocity` lies within
`[minVelocity, maxVelocity]`, with `minVelocity = -0.6` and
`maxVelocity = 0.5`. -/
theorem velocity_clamp_invariant (ops : List FlyerOp) (s : GameState) :
    minVelocity ≤ (runFlyerOps (ops ++ [FlyerOp.integrateStep]) s).birdVelocity ∧
    (runFlyerOps (ops ++ [FlyerOp.integrateStep]) s).birdVelocity ≤ maxVelocity ∧
    minVelocity = -(6/10) ∧ maxVelocity = 5/10 := by
  rw [runFlyerOps_append]
  have h := integrateVelocity_bounds (runFlyerOps ops s).birdVelocity
  exact ⟨h.1, h.2, by norm_num [minVelocity], by norm_num [maxVelocity]⟩

/-- C5: on the transition to `'gameover'`, the high score is persisted
(exactly one write, of the current score) if and only if the score
strictly exceeds the stored high score; the new stored high score is
the maximum of the two; and no externally triggerable operation of the
core ever decreases `highScore`. -/
theorem highScore_update_iff (s : GameState) (op : Op) :
    ((gameOver s).2 = if s.score > s.highScore then some s.score else none) ∧
    (gameOver s).1.highScore = max s.highScore s.score ∧
    s.highScore ≤ (applyOp op s).highScore := by
  refine ⟨?_, gameOver_highScore s, ?_⟩
  · unfold gameOver
    split <;> next h => simp [h]
  · cases op with
    | impulse => exact (flap_highScore s).ge
    | frame delta gapY => exact frameStep_highScore delta gapY s

/-- C6: firing one impulse while the status is `'start'` or
`'gameover'` makes the status `'playing'` with score 0, the bird at
its initial position, no pipes, both timers reset, and
`birdVelocity = flapStrength` exactly. -/
theorem impulse_from_idle_starts_run (s : GameState)
    (h : s.status = Status.start ∨ s.status = Status.gameover) :
    (flap s).status = Status.playing ∧ (flap s).score = 0 ∧
    (flap s).birdX = birdStartX ∧ (flap s).birdY = birdStartY ∧
    (flap s).birdZ = birdStartZ ∧ (flap s).pipes = [] ∧
    (flap s).gameTime = 0 ∧ (flap s).lastPipeSpawn = 0 ∧
    (flap s).birdVelocity = flapStrength := by
  rcases h with h | h <;> simp [flap, startGame, h]

/-- Witness for C6 at a concrete `'start'` state. -/
theorem impulse_from_idle_starts_run_wit :
    ((Status.start = Status.start ∨ Status.start = Status.gameover)) ∧
    ((flap ⟨Status.start, 3, 5, 0, 8, -20, 0, 7, 2, []⟩).status = Status.playing ∧
     (flap ⟨Status.start, 3, 5, 0, 8, -20, 0, 7, 2, []⟩).score = 0 ∧
     (flap ⟨Status.start, 3, 5, 0, 8, -20, 0, 7, 2, []⟩).birdX = birdStartX ∧
     (flap ⟨Status.start, 3, 5, 0, 8, -20, 0, 7, 2, []⟩).birdY = birdStartY ∧
     (flap ⟨Status.start, 3, 5, 0, 8, -20, 0, 7, 2, []⟩).birdZ = birdStartZ ∧
     (flap ⟨Status.start, 3, 5, 0, 8, -20, 0, 7, 2, []⟩).pipes = [] ∧
     (flap ⟨Status.start, 3, 5, 0, 8, -20, 0, 7, 2, []⟩).gameTime = 0 ∧
     (flap ⟨Status.start, 3, 5, 0, 8, -20, 0, 7, 2, []⟩).lastPipeSpawn = 0 ∧
     (flap ⟨Status.start, 3, 5, 0, 8, -20, 0, 7, 2, []⟩).birdVelocity = flapStrength) :=
  ⟨Or.inl rfl, impulse_from_idle_starts_run _ (Or.inl rfl)⟩

/-- C8: an impulse always sets `birdVelocity` to exactly
`flapStrength`, whatever the prior state, so a second impulse yields
the same velocity as the first. -/
theorem impulse_overwrites_velocity (s : GameState) :
    (flap s).birdVelocity = flapStrength ∧
    (flap (flap s)).birdVelocity = (flap s).birdVelocity := by
  cases h : s.status <;> simp [flap, startGame, h]

/-- C9: whenever the status is not `'playing'`, `checkCollisions`
returns `false`, for every bird position and pipe list. -/
theorem checkCollisions_nonplaying (s : GameState)
    (h : s.status ≠ Status.playing) : checkCollisions s = false := by
  simp [checkCollisions, h]

/-- Witness for C9 at a concrete `'gameover'` state with pipes present
and the bird far out of bounds. -/
theorem checkCollisions_nonplaying_wit :
    (Status.gameover ≠ Status.playing) ∧
    checkCollisions
      ⟨Status.gameover, 0, 0, 0, -50, -20, 0, 0, 0, [createPipe 9]⟩ = false :=
  ⟨by decide, checkCollisions_nonplaying _ (by decide)⟩

/-- C4: a gate's `passed` flag goes false-to-true in one loop iteration
exactly when it is not yet passed and its advanced depth is strictly
past the flyer's depth plus the fixed margin 2; along any number of
further iterations the flag transitions at most once, and the number
of transitions equals the number of score-increment signals emitted
for that gate. -/
theorem gate_scored_at_most_once (birdZ : ℚ) (p : Pipe) (n : ℕ) :
    ((p.passed = false ∧ (pipeAdvanced birdZ p).passed = true) ↔
      (p.passed = false ∧ p.z + pipeSpeed > birdZ + 2)) ∧
    passTransCount birdZ p n ≤ 1 ∧
    passTransCount birdZ p n = scoreSignalCount birdZ p n :=
  ⟨pass_transition_iff birdZ p, passTransCount_le_one birdZ n p,
    passTransCount_eq_scoreSignalCount birdZ n p⟩

/-- C7: one `updatePipes` call advances every live gate's depth by
exactly `pipeSpeed` (so depth strictly increases), and the surviving
registry is exactly the advanced gates whose depth has not crossed the
retirement threshold `pipeEndZ`: a gate is removed if and only if its
advanced depth exceeds `pipeEndZ`. -/
theorem gates_advance_and_retire (birdZ : ℚ) (ps : List Pipe) :
    ((updatePipes birdZ ps).1 =
      (ps.map (pipeAdvanced birdZ)).filter
        (fun q => !decide (q.z > pipeEndZ))) ∧
    (∀ p : Pipe, (pipeAdvanced birdZ p).z = p.z + pipeSpeed ∧
      p.z < (pipeAdvanced birdZ p).z) := by
  refine ⟨by rw [updatePipes_spec], fun p => ?_⟩
  have hz : (pipeAdvanced birdZ p).z = p.z + pipeSpeed := pipeStep_fst_z birdZ p
  have hsp : (0 : ℚ) < pipeSpeed := by norm_num [pipeSpeed]
  refine ⟨hz, ?_⟩
  rw [hz]
  linarith

/-- C10: in one `updatePipes` call every gate that was live at the
start is processed exactly once — the result is a pointwise `map` of
the one-iteration body followed by the retirement `filter` — the
survivors keep their relative order (they form a sublist of the
processed list), and the score signals count each gate's pass test
exactly once. -/
theorem gates_processed_once_in_order (birdZ : ℚ) (ps : List Pipe) :
    (updatePipes birdZ ps).1 =
      (ps.map (pipeAdvanced birdZ)).filter
        (fun q => !decide (q.z > pipeEndZ)) ∧
    List.Sublist ((updatePipes birdZ ps).1) (ps.map (pipeAdvanced birdZ)) ∧
    (updatePipes birdZ ps).2 =
      ps.countP (fun p => decide (scoresNow birdZ p)) := by
  rw [updatePipes_spec]
  exact ⟨rfl, List.filter_sublist _, rfl⟩

/-- C2, counterexample: with the bird's height exactly at the lower
bound plus the collision radius (so the inflated height is exactly at
the lower world bound, where the claim demands `collided = true`), the
evaluator returns `false`, because line 439 uses strict `<`. -/
theorem bounds_tangent_no_collision :
    checkCollisions ⟨Status.playing, 0, 0, 0, -(26/25), -20, 0, 0, 0, []⟩ =
      false ∧
    (-(26/25) : ℚ) = boundsBottom + birdRadius := by
  constructor
  · norm_num [checkCollisions, boundsBottom, boundsTop, birdRadius, birdSize]
  · norm_num [boundsBottom, birdRadius, birdSize]

/-- C2, amended: in `'playing'` state with no pipes, the evaluator
reports a collision exactly when the flyer's height inflated by the
collision radius falls strictly below the lower world bound or
strictly above the upper world bound. -/
theorem checkCollisions_bounds_strict (s : GameState)
    (hst : s.status = Status.playing) (hp : s.pipes = []) :
    (checkCollisions s = true ↔
      (s.birdY - birdRadius < boundsBottom ∨
        s.birdY + birdRadius > boundsTop)) := by
  have h1 : s.birdY < boundsBottom + birdRadius ↔
      s.birdY - birdRadius < boundsBottom := by
    constructor <;> intro <;> linarith
  have h2 : s.birdY > boundsTop - birdRadius ↔
      s.birdY + birdRadius > boundsTop := by
    constructor <;> intro <;> linarith
  simp [checkCollisions, hst, hp, h1, h2]

/-- Witness for the amended C2 at a concrete in-bounds playing state. -/
theorem checkCollisions_bounds_strict_wit :
    (GameState.mk Status.playing 0 0 0 8 (-20) 0 0 0 []).status =
      Status.playing ∧
    (GameState.mk Status.playing 0 0 0 8 (-20) 0 0 0 []).pipes = [] ∧
    (checkCollisions (GameState.mk Status.playing 0 0 0 8 (-20) 0 0 0 []) =
        true ↔
      ((GameState.mk Status.playing 0 0 0 8 (-20) 0 0 0 []).birdY -
          birdRadius < boundsBottom ∨
        (GameState.mk Status.playing 0 0 0 8 (-20) 0 0 0 []).birdY +
          birdRadius > boundsTop)) :=
  ⟨rfl, rfl, checkCollisions_bounds_strict _ rfl rfl⟩

/-- C3: with one live gate built from `gapCenter = 9` (gap spanning
`[4.5, 13.5]`) at the flyer's depth and lateral position, the
evaluator reports no collision at height 9 and a collision at height
4, with collision radius `0.96`. -/
theorem gate_gap_scenario :
    checkCollisions ⟨Status.playing, 0, 0, 0, 9, -20, 0, 0, 0,
      [{ createPipe 9 with z := -20 }]⟩ = false ∧
    checkCollisions ⟨Status.playing, 0, 0, 0, 4, -20, 0, 0, 0,
      [{ createPipe 9 with z := -20 }]⟩ = true ∧
    (createPipe 9).gapBottom = 9/2 ∧ (createPipe 9).gapTop = 27/2 ∧
    birdRadius = 24/25 := by
  refine ⟨?_, ?_, ?_, ?_, ?_⟩ <;>
    norm_num [checkCollisions, pipeCollides, createPipe, boundsBottom,
      boundsTop, birdRadius, birdSize, pipeDepth, pipeWidth, gapSize,
      birdStartX, List.any]

end Game
